import Mathlib

/-!
# Verification of `src/config-gen.py` (ConfigGenConveyorBelt)

A shallow embedding of the configuration generator: a Python script that
reads a delimiter-separated parameter file into a list of dictionaries
(`read_csv_to_dict`, via `csv.DictReader`), renders a Jinja2 template once
per row, and writes one `.cfg` file per row into an output directory
(`generate_configurations`), with a per-row `try/except` that reports a
failing row and continues.

External effects are made explicit parameters:
* the state of the tabular input resource is a `CsvSource`
  (missing / open-or-decode failure / parsed records);
* the template engine is a function `render : DictRow → Except String String`
  (`.error` = the engine raised, with the exception text);
* the file writer is `write : String → String → Except String Unit`
  (path, content; `.error` = `open`/`write` raised);
* the filesystem of directories is a `Finset (List String)` of existing
  directory paths, each path a list of components.

Python exceptions are modelled as `Except` errors carrying the exception
message; the distinct exception classes used by the script
(`FileNotFoundError`, `ValueError`) are the constructors of `PyError`.
-/

/-- A value stored in a row dictionary produced by `csv.DictReader`:
either a parsed string field, or Python `None` (the `restval` used for
missing trailing fields). -/
abbrev PyVal := Option String

/-- Python's f-string rendering of such a value: `None` prints as `"None"`. -/
def pyStrOfVal : PyVal → String
  | some s => s
  | none => "None"

/-- One row as produced by `csv.DictReader`: the header-keyed fields in
header order (`fields`), plus the `restkey` entry (`rest`), present when the
record had more fields than the header. The `restkey` is the Python `None`
object, distinct from every string key, so it is kept apart from `fields`. -/
structure DictRow where
  fields : List (String × PyVal)
  rest : Option (List String)
deriving DecidableEq, Repr

/-- Dictionary lookup on an association list built by repeated insertion in
list order: the LAST binding of a key wins, as in a Python `dict`. -/
def lookupLast (k : String) : List (String × PyVal) → Option PyVal
  | [] => none
  | (k', v) :: tl =>
    match lookupLast k tl with
    | some r => some r
    | none => if k' = k then some v else none

/-- Conversion by `csv.DictReader` of one raw record to a dict: header names
are zipped with the record's fields; missing trailing fields are bound to
`restval = None`; extra fields beyond the header go under the `restkey`. -/
def dictReaderRow (header record : List String) : DictRow where
  fields := header.zip (record.map some ++
    List.replicate (header.length - record.length) none)
  rest := if header.length < record.length
    then some (record.drop header.length) else none

/-- The parsed content of an opened tabular resource, as `csv.DictReader`
sees it: `header = none` models an empty file (no first record), otherwise
`records` are the raw records after the header, in file order. -/
inductive CsvOpenOutcome where
  | ioError (cause : String)
  | content (header : Option (List String)) (records : List (List String))
deriving DecidableEq, Repr

/-- The state of the tabular input path: non-existent (the
`os.path.exists` guard fires), or present with an open outcome. -/
inductive CsvSource where
  | missing
  | present (outcome : CsvOpenOutcome)
deriving DecidableEq, Repr

/-- The Python exception classes raised by `read_csv_to_dict` and
`generate_configurations`, with their messages. -/
inductive PyError where
  | fileNotFound (msg : String)
  | valueError (msg : String)
deriving DecidableEq, Repr

/-- Model of `list(csv.DictReader(file, delimiter=...))`: no header (empty file)
yields no rows; otherwise every non-blank record becomes a dict row in
input order (`DictReader.__next__` skips records that parse to `[]`). -/
def parseCsv : Option (List String) → List (List String) → List DictRow
  | none, _ => []
  | some header, records =>
    (records.filter (fun r => !r.isEmpty)).map (dictReaderRow header)

/-- The body of the `try` block of `read_csv_to_dict` (lines 71-81):
opening/decoding may raise (the `ioError` case), and a parse yielding zero
rows raises `ValueError("CSV file is empty or has no data rows")` INSIDE
the `try`. `.error` carries the raised exception's message. -/
def readCsvTry : CsvOpenOutcome → Except String (List DictRow)
  | .ioError cause => .error cause
  | .content header records =>
    let config_parameters := parseCsv header records
    if config_parameters.isEmpty then
      .error "CSV file is empty or has no data rows"
    else
      .ok config_parameters

/-- Model of `read_csv_to_dict(csv_file_path, delimiter)` (lines 45-87): a missing
path raises `FileNotFoundError`; any exception escaping the `try` block —
including the zero-rows `ValueError` raised inside it — is caught by
`except Exception as e` and re-raised as
`ValueError(f"Error reading CSV file: {e}")`. -/
def read_csv_to_dict (csv_file_path : String) : CsvSource → Except PyError (List DictRow)
  | .missing => .error (.fileNotFound ("CSV file not found: " ++ csv_file_path))
  | .present outcome =>
    match readCsvTry outcome with
    | .ok config_parameters => .ok config_parameters
    | .error e => .error (.valueError ("Error reading CSV file: " ++ e))

/-- The non-empty ancestors-and-self chain of a directory path:
`["a","b","c"] ↦ [["a"], ["a","b"], ["a","b","c"]]`. -/
def pathChain (p : List String) : List (List String) :=
  (List.range p.length).map (fun k => p.take (k + 1))

/-- Model of `Path(p).mkdir(parents=True, exist_ok=ok)` over an abstract
filesystem `fs`, the finite set of existing directory paths: a
pre-existing directory raises `FileExistsError` unless `exist_ok`;
otherwise the directory and its missing ancestors are created. -/
def mkdirParents (fs : Finset (List String)) (p : List String) (exist_ok : Bool) :
    Except String (Finset (List String)) :=
  if p ∈ fs then
    if exist_ok then .ok fs else .error "FileExistsError"
  else
    .ok (fs ∪ (pathChain p).toFinset)

/-- Model of `ensure_output_directory(output_dir)` (lines 113-126):
`Path(output_dir).mkdir(parents=True, exist_ok=True)`. -/
def ensure_output_directory (fs : Finset (List String)) (output_dir : List String) :
    Except String (Finset (List String)) :=
  mkdirParents fs output_dir true

/-- The filename derived for row `parameter` at 1-based index `i`
(lines 186-189): `hostname = parameter.get("hostname", f"config_{i}")`,
then `f"{hostname}.cfg"`. The default is used only when the key `"hostname"`
is ABSENT; a present value — even the empty string, or `None` — is
f-string-rendered and used as-is. -/
def configFilename (parameter : DictRow) (i : Nat) : String :=
  let hostname : String :=
    match lookupLast "hostname" parameter.fields with
    | some v => pyStrOfVal v
    | none => "config_" ++ toString i
  hostname ++ ".cfg"

/-- Model of `os.path.join(output_dir, config_filename)` for a relative filename. -/
def joinPath (output_dir config_filename : String) : String :=
  output_dir ++ "/" ++ config_filename

/-- The body of the per-row `try/except` (lines 180-202) for the row
`parameter` at 1-based index `i`, of `total` rows. Returns the lines it
prints and the files it writes (path, content). Rendering happens first;
if it raises, control jumps to the `except` arm and nothing is written.
Otherwise the file is written; if the write raises, the same `except` arm
reports it. On success the progress line uses the row index `i`. -/
def processRow (render : DictRow → Except String String)
    (write : String → String → Except String Unit)
    (output_dir : String) (total i : Nat) (parameter : DictRow) :
    List String × List (String × String) :=
  match render parameter with
  | .error e =>
    (["  Error generating config for entry " ++ toString i ++ ": " ++ e], [])
  | .ok result =>
    let config_filename := configFilename parameter i
    let config_path := joinPath output_dir config_filename
    match write config_path result with
    | .error e =>
      (["  Error generating config for entry " ++ toString i ++ ": " ++ e], [])
    | .ok _ =>
      (["  [" ++ toString i ++ "/" ++ toString total ++ "] Created: " ++
          config_filename],
       [(config_path, result)])

/-- The loop `for i, parameter in enumerate(config_parameters, 1)`:
rows are processed in order with 1-based indices starting at `start`,
accumulating printed lines and written files. -/
def generateLoopFrom (render : DictRow → Except String String)
    (write : String → String → Except String Unit)
    (output_dir : String) (total : Nat) :
    Nat → List DictRow → List String × List (String × String)
  | _, [] => ([], [])
  | start, parameter :: tl =>
    ((processRow render write output_dir total start parameter).1 ++
      (generateLoopFrom render write output_dir total (start + 1) tl).1,
     (processRow render write output_dir total start parameter).2 ++
      (generateLoopFrom render write output_dir total (start + 1) tl).2)

/-- Step 4 of `generate_configurations` (lines 179-202): enumerate the
rows from 1, with `total = len(config_parameters)`. -/
def generateLoop (render : DictRow → Except String String)
    (write : String → String → Except String Unit)
    (output_dir : String) (config_parameters : List DictRow) :
    List String × List (String × String) :=
  generateLoopFrom render write output_dir config_parameters.length 1 config_parameters

/-- Model of `generate_configurations` (lines 129-204), with its collaborators made
explicit: read the tabular input (a failure propagates); load the template
(`templateFound = false` models `jinja2.TemplateNotFound`, re-raised as
`FileNotFoundError`); ensure the output directory; run the per-row loop.
Informational `print` calls outside the loop are not tracked. Returns
the updated directory filesystem, the loop's printed lines, and the files
written. -/
def generate_configurations (template_file csv_file : String) (src : CsvSource)
    (templateFound : Bool) (render : DictRow → Except String String)
    (write : String → String → Except String Unit)
    (fs : Finset (List String)) (output_dir : List String) (output_dirStr : String) :
    Except PyError (Finset (List String) × List String × List (String × String)) :=
  match read_csv_to_dict csv_file src with
  | .error e => .error e
  | .ok config_parameters =>
    if !templateFound then
      .error (.fileNotFound ("Template file not found: " ++ template_file))
    else
      match ensure_output_directory fs output_dir with
      | .error e => .error (.valueError e)
      | .ok fs' =>
        .ok (fs', generateLoop render write output_dirStr config_parameters)

/-- Model of `main` (lines 207-238): any exception escaping
`generate_configurations` is caught and the process exits with status 1;
otherwise the process runs to completion and exits with status 0. -/
def mainExitCode (template_file csv_file : String) (src : CsvSource)
    (templateFound : Bool) (render : DictRow → Except String String)
    (write : String → String → Except String Unit)
    (fs : Finset (List String)) (output_dir : List String) (output_dirStr : String) :
    Nat :=
  match generate_configurations template_file csv_file src templateFound
      render write fs output_dir output_dirStr with
  | .ok _ => 0
  | .error _ => 1

/-! ## Helper lemmas -/

/-- With `parents=True, exist_ok=True`, the directory-creation step never
raises: it returns the filesystem either unchanged or extended. -/
theorem ensure_output_directory_ok (fs : Finset (List String)) (p : List String) :
    ∃ fs', ensure_output_directory fs p = .ok fs' := by
  unfold ensure_output_directory mkdirParents
  by_cases h : p ∈ fs <;> simp [h]

/-- Everything printed or written by the iteration for the row at position
`k` (0-based; its enumerated index is `start + k`) appears in the output of
the whole loop. -/
theorem generateLoopFrom_mem (render : DictRow → Except String String)
    (write : String → String → Except String Unit)
    (output_dir : String) (total : Nat) :
    ∀ (rows : List DictRow) (start k : Nat) (hk : k < rows.length),
      (∀ line ∈ (processRow render write output_dir total (start + k)
          (rows.get ⟨k, hk⟩)).1,
        line ∈ (generateLoopFrom render write output_dir total start rows).1) ∧
      (∀ w ∈ (processRow render write output_dir total (start + k)
          (rows.get ⟨k, hk⟩)).2,
        w ∈ (generateLoopFrom render write output_dir total start rows).2) := by
  intro rows
  induction rows with
  | nil => intro start k hk; exact absurd hk (by simp)
  | cons p tl ih =>
    intro start k hk
    cases k with
    | zero =>
      refine ⟨fun line hline => ?_, fun w hw => ?_⟩
      · simp only [generateLoopFrom]
        exact List.mem_append_left _ (by simpa using hline)
      · simp only [generateLoopFrom]
        exact List.mem_append_left _ (by simpa using hw)
    | succ k =>
      have hk' : k < tl.length := Nat.lt_of_succ_lt_succ (by simpa using hk)
      have hidx : start + (k + 1) = (start + 1) + k := by omega
      have ih' := ih (start + 1) k hk'
      refine ⟨fun line hline => ?_, fun w hw => ?_⟩
      · simp only [generateLoopFrom]
        refine List.mem_append_right _ (ih'.1 line ?_)
        rw [hidx] at hline
        exact hline
      · simp only [generateLoopFrom]
        refine List.mem_append_right _ (ih'.2 w ?_)
        rw [hidx] at hw
        exact hw

/-- Specialisation of `generateLoopFrom_mem` to the loop as started by
`generate_configurations`: row `k` (0-based) carries index `k + 1`. -/
theorem generateLoop_mem (render : DictRow → Except String String)
    (write : String → String → Except String Unit)
    (output_dir : String) (rows : List DictRow) (k : Nat) (hk : k < rows.length) :
    (∀ line ∈ (processRow render write output_dir rows.length (k + 1)
        (rows.get ⟨k, hk⟩)).1,
      line ∈ (generateLoop render write output_dir rows).1) ∧
    (∀ w ∈ (processRow render write output_dir rows.length (k + 1)
        (rows.get ⟨k, hk⟩)).2,
      w ∈ (generateLoop render write output_dir rows).2) := by
  have h := generateLoopFrom_mem render write output_dir rows.length rows 1 k hk
  rw [Nat.add_comm 1 k] at h
  exact h

/-! ## Claims about the Tabular Reader (`read_csv_to_dict`) -/

/-- C5: for every path that does not reference an existing resource, the
reader fails with the NotFound error (`FileNotFoundError`, from the
`os.path.exists` guard) and with no other error kind. -/
theorem claim_C5_missing_not_found (path : String) :
    read_csv_to_dict path .missing =
      .error (.fileNotFound ("CSV file not found: " ++ path)) := rfl

/-- C3, counterexample: on a header-only input (zero data rows) the error
actually raised is `ValueError("Error reading CSV file: CSV file is empty
or has no data rows")` — the zero-rows `ValueError` is raised inside the
`try` block, caught by the broad `except`, and re-wrapped with the very
same `"Error reading CSV file: "` ReadError wrapper that an underlying
I/O failure gets (second conjunct), so the surfaced EmptyOrMalformed error
is not distinct from the ReadError form: it is a ReadError-wrapped message
(third conjunct). -/
theorem claim_C3_counterexample :
    read_csv_to_dict "./data/example-data.csv"
        (.present (.content (some ["hostname", "ip_address", "interface"]) [])) =
      .error (.valueError "Error reading CSV file: CSV file is empty or has no data rows") ∧
    read_csv_to_dict "./data/example-data.csv"
        (.present (.ioError "Permission denied")) =
      .error (.valueError "Error reading CSV file: Permission denied") ∧
    "Error reading CSV file: CSV file is empty or has no data rows" =
      "Error reading CSV file: " ++ "CSV file is empty or has no data rows" :=
  ⟨rfl, rfl, rfl⟩

/-- C3, amended: a header-only or empty input does raise the zero-rows
`ValueError`, but that error is re-caught by the same `except` clause and
surfaced wrapped in the `"Error reading CSV file: "` ReadError form; an
underlying I/O or decoding failure is wrapped identically, with the
original cause preserved in the message. -/
theorem claim_C3_empty_wrapped_as_read_error (path cause : String)
    (header : Option (List String)) (records : List (List String)) :
    (parseCsv header records = [] →
      read_csv_to_dict path (.present (.content header records)) =
        .error (.valueError ("Error reading CSV file: " ++
          "CSV file is empty or has no data rows"))) ∧
    read_csv_to_dict path (.present (.ioError cause)) =
      .error (.valueError ("Error reading CSV file: " ++ cause)) := by
  constructor
  · intro h
    simp [read_csv_to_dict, readCsvTry, h]
  · rfl

/-- C3, witness: the amended statement evaluated on a header-only file and
on a concrete I/O failure. -/
theorem claim_C3_witness :
    parseCsv (some ["hostname"]) [] = [] ∧
    read_csv_to_dict "./data/example-data.csv"
        (.present (.content (some ["hostname"]) [])) =
      .error (.valueError ("Error reading CSV file: " ++
        "CSV file is empty or has no data rows")) ∧
    read_csv_to_dict "./data/example-data.csv" (.present (.ioError "Permission denied")) =
      .error (.valueError ("Error reading CSV file: " ++ "Permission denied")) :=
  ⟨rfl,
   (claim_C3_empty_wrapped_as_read_error "./data/example-data.csv" "Permission denied"
     (some ["hostname"]) []).1 rfl,
   (claim_C3_empty_wrapped_as_read_error "./data/example-data.csv" "Permission denied"
     (some ["hostname"]) []).2⟩

/-- C6: for every valid input with a header and at least one data row
(no blank records), the reader returns one `DictRow` per data record, in
input order: the result is exactly the record list mapped through
`dictReaderRow`, so its length equals the number of data rows and its
`k`-th row is the image of the `k`-th record. -/
theorem claim_C6_row_count_order (path : String) (header : List String)
    (records : List (List String)) (hne : records ≠ [])
    (hnb : ∀ r ∈ records, r ≠ []) :
    read_csv_to_dict path (.present (.content (some header) records)) =
      .ok (records.map (dictReaderRow header)) ∧
    (records.map (dictReaderRow header)).length = records.length ∧
    ∀ k : Nat, (records.map (dictReaderRow header)).get? k =
      (records.get? k).map (dictReaderRow header) := by
  have hf : records.filter (fun r => !r.isEmpty) = records :=
    List.filter_eq_self.mpr (fun a ha => by
      simp only [Bool.not_eq_true', List.isEmpty_eq_false]
      exact hnb a ha)
  have hparse : parseCsv (some header) records = records.map (dictReaderRow header) := by
    simp [parseCsv, hf]
  have hmapne : (records.map (dictReaderRow header)).isEmpty = false := by
    simp [List.isEmpty_eq_false, hne]
  refine ⟨?_, by simp, fun k => by simp⟩
  simp [read_csv_to_dict, readCsvTry, hparse, hmapne]

/-- C6, witness: a two-record input yields two rows in input order. -/
theorem claim_C6_witness :
    (([["r1"], ["r2"]] : List (List String)) ≠ []) ∧
    (∀ r ∈ ([["r1"], ["r2"]] : List (List String)), r ≠ []) ∧
    (read_csv_to_dict "./data/example-data.csv"
        (.present (.content (some ["hostname"]) [["r1"], ["r2"]])) =
      .ok (([["r1"], ["r2"]] : List (List String)).map (dictReaderRow ["hostname"])) ∧
     (([["r1"], ["r2"]] : List (List String)).map (dictReaderRow ["hostname"])).length =
       ([["r1"], ["r2"]] : List (List String)).length ∧
     ∀ k : Nat,
       (([["r1"], ["r2"]] : List (List String)).map (dictReaderRow ["hostname"])).get? k =
         ((([["r1"], ["r2"]] : List (List String))).get? k).map (dictReaderRow ["hostname"])) :=
  ⟨by decide, by decide,
   claim_C6_row_count_order "./data/example-data.csv" ["hostname"] [["r1"], ["r2"]]
     (by decide) (by decide)⟩

/-- C8: a record with fewer fields than the header still yields a row keyed
by every header name, and each missing trailing field is bound to the
Python `None` restval (`none` in the model) — not to the empty string. -/
theorem claim_C8_short_record (header record : List String)
    (hlt : record.length < header.length) :
    (dictReaderRow header record).fields.map Prod.fst = header ∧
    ∀ j, record.length ≤ j → j < header.length →
      (dictReaderRow header record).fields.get? j =
        (header.get? j).map (fun name => (name, (none : PyVal))) := by
  have hpadlen : (record.map some ++
      List.replicate (header.length - record.length) (none : PyVal)).length =
        header.length := by
    simp
    omega
  constructor
  · exact List.map_fst_zip _ _ (by rw [hpadlen])
  · intro j h1 h2
    have hpad : (record.map some ++
        List.replicate (header.length - record.length) (none : PyVal)).get? j =
          some none := by
      rw [List.get?_eq_getElem?]
      rw [List.getElem?_append_right (by simpa using h1)]
      simp only [List.length_map, List.getElem?_replicate]
      rw [if_pos (by omega)]
    have hh : header.get? j = some (header.get ⟨j, h2⟩) := List.get?_eq_get h2
    rw [hh]
    exact (List.get?_zip_eq_some _ _ _ _).mpr ⟨hh, hpad⟩

/-- C8, witness: header of two names with a one-field record binds the
second name to `none`. -/
theorem claim_C8_witness :
    (["r1"] : List String).length < (["hostname", "ip_address"] : List String).length ∧
    ((dictReaderRow ["hostname", "ip_address"] ["r1"]).fields.map Prod.fst =
      ["hostname", "ip_address"] ∧
     ∀ j, (["r1"] : List String).length ≤ j →
       j < (["hostname", "ip_address"] : List String).length →
       (dictReaderRow ["hostname", "ip_address"] ["r1"]).fields.get? j =
         ((["hostname", "ip_address"] : List String).get? j).map
           (fun name => (name, (none : PyVal)))) :=
  ⟨by decide, claim_C8_short_record ["hostname", "ip_address"] ["r1"] (by decide)⟩

/-! ## Claim about the Output Writer directory step -/

/-- C7: creating an absent output directory creates it together with every
missing ancestor, and a second call on the now-existing path succeeds
without error and returns the filesystem unchanged (idempotence of
`mkdir(parents=True, exist_ok=True)`). -/
theorem claim_C7_idempotent (fs : Finset (List String)) (p : List String)
    (hne : p ≠ []) (habs : p ∉ fs) :
    ∃ fs', ensure_output_directory fs p = .ok fs' ∧
      (∀ k, k < p.length → p.take (k + 1) ∈ fs') ∧
      ensure_output_directory fs' p = .ok fs' := by
  refine ⟨fs ∪ (pathChain p).toFinset, ?_, ?_, ?_⟩
  · simp [ensure_output_directory, mkdirParents, habs]
  · intro k hk
    apply Finset.mem_union_right
    rw [List.mem_toFinset]
    exact List.mem_map.mpr ⟨k, List.mem_range.mpr hk, rfl⟩
  · have hlen : 0 < p.length := List.length_pos.mpr hne
    have hself : p ∈ fs ∪ (pathChain p).toFinset := by
      apply Finset.mem_union_right
      rw [List.mem_toFinset]
      refine List.mem_map.mpr ⟨p.length - 1, List.mem_range.mpr (by omega), ?_⟩
      have heq : p.length - 1 + 1 = p.length := by omega
      rw [heq, List.take_length]
    simp [ensure_output_directory, mkdirParents, hself]

/-- C7, witness: creating `_output/configs` in an empty filesystem and
calling the function again on the result. -/
theorem claim_C7_witness :
    (["_output", "configs"] : List String) ≠ [] ∧
    (["_output", "configs"] : List String) ∉ (∅ : Finset (List String)) ∧
    (∃ fs', ensure_output_directory ∅ ["_output", "configs"] = .ok fs' ∧
      (∀ k, k < (["_output", "configs"] : List String).length →
        (["_output", "configs"] : List String).take (k + 1) ∈ fs') ∧
      ensure_output_directory fs' ["_output", "configs"] = .ok fs') :=
  ⟨by decide, by decide,
   claim_C7_idempotent ∅ ["_output", "configs"] (by decide) (by decide)⟩

/-! ## Concrete fixtures used by witness and counterexample theorems -/

/-- A template engine stub that renders every row to the same text. -/
def okRender : DictRow → Except String String := fun _ => .ok "rendered"

/-- A file writer stub that always succeeds. -/
def okWrite : String → String → Except String Unit := fun _ _ => .ok ()

/-- A template engine stub that raises an engine error exactly on the row
whose hostname field is `"r2"`. -/
def renderFailOnR2 : DictRow → Except String String := fun row =>
  if lookupLast "hostname" row.fields = some (some "r2") then .error "engine error"
  else .ok "rendered"

/-- A template engine stub that raises an engine error exactly on the row
whose hostname field is `"r1"`. -/
def renderFailOnR1 : DictRow → Except String String := fun row =>
  if lookupLast "hostname" row.fields = some (some "r1") then .error "engine error"
  else .ok "rendered"

/-- Three one-field rows with hostnames `r1`, `r2`, `r3`. -/
def rowsThree : List DictRow :=
  [⟨[("hostname", some "r1")], none⟩,
   ⟨[("hostname", some "r2")], none⟩,
   ⟨[("hostname", some "r3")], none⟩]

/-- Two one-field rows with hostnames `r1`, `r2`. -/
def rowsTwo : List DictRow :=
  [⟨[("hostname", some "r1")], none⟩,
   ⟨[("hostname", some "r2")], none⟩]

/-- A tabular source whose parse yields `rowsThree`. -/
def csvThree : CsvSource :=
  .present (.content (some ["hostname"]) [["r1"], ["r2"], ["r3"]])

/-! ## Claims about the generation loop -/

/-- C1, counterexample: a row whose `hostname` field is present but EMPTY
produces the artifact name `".cfg"`, not `"config_1.cfg"` — `dict.get`
falls back to the default only when the key is absent, so the claim's
"hostname absent or empty" fallback condition is wrong for the empty
case. -/
theorem claim_C1_counterexample :
    configFilename ⟨[("hostname", some "")], none⟩ 1 = ".cfg" ∧
    configFilename ⟨[("hostname", some "")], none⟩ 1 ≠ "config_1.cfg" := by
  exact ⟨rfl, by decide⟩

/-- C1, amended: the artifact name is `"<value-of-hostname>.cfg"` whenever
the row's `hostname` key is present with a string value — even the empty
string — and `"config_<i>.cfg"` only when the key is absent. -/
theorem claim_C1_filename (parameter : DictRow) (i : Nat) (v : String) :
    (lookupLast "hostname" parameter.fields = some (some v) →
      configFilename parameter i = v ++ ".cfg") ∧
    (lookupLast "hostname" parameter.fields = none →
      configFilename parameter i = ("config_" ++ toString i) ++ ".cfg") := by
  constructor
  · intro h
    simp [configFilename, h, pyStrOfVal]
  · intro h
    simp [configFilename, h]

/-- C1, witness: the spec's own examples — hostname `router01` gives
`router01.cfg`; a row without a `hostname` key at position 3 gives
`config_3.cfg`. -/
theorem claim_C1_witness :
    configFilename ⟨[("hostname", some "router01")], none⟩ 1 = "router01.cfg" ∧
    configFilename ⟨[("ip_address", some "192.168.1.1")], none⟩ 3 =
      ("config_" ++ toString 3) ++ ".cfg" :=
  ⟨(claim_C1_filename ⟨[("hostname", some "router01")], none⟩ 1 "router01").1 rfl,
   (claim_C1_filename ⟨[("ip_address", some "192.168.1.1")], none⟩ 3 "router01").2 rfl⟩

/-- C9: a row whose `hostname` field is present and equal to the empty
string is named `".cfg"` — the empty value plus the extension — and not
`"config_<i>.cfg"`. -/
theorem claim_C9_empty_hostname (parameter : DictRow) (i : Nat)
    (h : lookupLast "hostname" parameter.fields = some (some "")) :
    configFilename parameter i = ".cfg" ∧
    configFilename parameter i ≠ ("config_" ++ toString i) ++ ".cfg" := by
  have heq : configFilename parameter i = ".cfg" := by
    simp [configFilename, h, pyStrOfVal]
  refine ⟨heq, ?_⟩
  rw [heq]
  intro hbad
  have hlen := congrArg String.length hbad
  rw [String.length_append, String.length_append] at hlen
  have h1 : (".cfg").length = 4 := rfl
  have h2 : ("config_").length = 7 := rfl
  rw [h1, h2] at hlen
  omega

/-- C9, witness: the empty-hostname row at position 5. -/
theorem claim_C9_witness :
    lookupLast "hostname" ([("hostname", some "")] : List (String × PyVal)) =
      some (some "") ∧
    (configFilename ⟨[("hostname", some "")], none⟩ 5 = ".cfg" ∧
     configFilename ⟨[("hostname", some "")], none⟩ 5 ≠
       ("config_" ++ toString 5) ++ ".cfg") :=
  ⟨rfl, claim_C9_empty_hostname ⟨[("hostname", some "")], none⟩ 5 rfl⟩

/-- C10: when rendering a row raises, the `except` arm is reached before
any file operation, so that row writes nothing — only the error report for
that row is produced. -/
theorem claim_C10_render_failure_no_artifact
    (render : DictRow → Except String String)
    (write : String → String → Except String Unit)
    (output_dir : String) (total i : Nat) (parameter : DictRow) (e : String)
    (h : render parameter = .error e) :
    (processRow render write output_dir total i parameter).2 = [] ∧
    (processRow render write output_dir total i parameter).1 =
      ["  Error generating config for entry " ++ toString i ++ ": " ++ e] := by
  constructor <;> simp [processRow, h]

/-- C10, witness: the failing row `r2` at position 2 of 3 writes no file. -/
theorem claim_C10_witness :
    renderFailOnR2 ⟨[("hostname", some "r2")], none⟩ = .error "engine error" ∧
    ((processRow renderFailOnR2 okWrite "_output" 3 2
        ⟨[("hostname", some "r2")], none⟩).2 = [] ∧
     (processRow renderFailOnR2 okWrite "_output" 3 2
        ⟨[("hostname", some "r2")], none⟩).1 =
       ["  Error generating config for entry " ++ toString 2 ++ ": " ++ "engine error"]) :=
  ⟨rfl, claim_C10_render_failure_no_artifact renderFailOnR2 okWrite "_output" 3 2
    ⟨[("hostname", some "r2")], none⟩ "engine error" rfl⟩

/-- C2: a render or write failure on one row is caught at the per-row loop
boundary and reported with that row's 1-based index and the underlying
cause (first conjunct); every other row whose render and write succeed
still gets its artifact written (second conjunct); and the process exits
with status 0 (third conjunct). -/
theorem claim_C2_continue_on_error
    (template_file csv_file : String) (src : CsvSource)
    (render : DictRow → Except String String)
    (write : String → String → Except String Unit)
    (fs : Finset (List String)) (output_dir : List String) (output_dirStr : String)
    (rows : List DictRow) (j : Nat) (e : String)
    (hrows : read_csv_to_dict csv_file src = .ok rows)
    (hj : j < rows.length)
    (hfail : render (rows.get ⟨j, hj⟩) = .error e ∨
      ∃ r, render (rows.get ⟨j, hj⟩) = .ok r ∧
        write (joinPath output_dirStr (configFilename (rows.get ⟨j, hj⟩) (j + 1))) r =
          .error e) :
    ("  Error generating config for entry " ++ toString (j + 1) ++ ": " ++ e) ∈
      (generateLoop render write output_dirStr rows).1 ∧
    (∀ k (hk : k < rows.length) (r : String),
      render (rows.get ⟨k, hk⟩) = .ok r →
      write (joinPath output_dirStr (configFilename (rows.get ⟨k, hk⟩) (k + 1))) r =
        .ok () →
      (joinPath output_dirStr (configFilename (rows.get ⟨k, hk⟩) (k + 1)), r) ∈
        (generateLoop render write output_dirStr rows).2) ∧
    mainExitCode template_file csv_file src true render write fs output_dir
      output_dirStr = 0 := by
  refine ⟨?_, ?_, ?_⟩
  · apply (generateLoop_mem render write output_dirStr rows j hj).1
    rcases hfail with h | ⟨r, hr, hw⟩
    · simp only [List.get_eq_getElem] at h
      simp [processRow, h]
    · simp only [List.get_eq_getElem, joinPath] at hr hw
      simp [processRow, hr, hw, joinPath]
  · intro k hk r hr hw
    apply (generateLoop_mem render write output_dirStr rows k hk).2
    simp only [List.get_eq_getElem, joinPath] at hr hw
    simp [processRow, hr, hw, joinPath]
  · unfold mainExitCode generate_configurations
    rw [hrows]
    obtain ⟨fs', hfs'⟩ := ensure_output_directory_ok fs output_dir
    simp [hfs']

/-- C2, witness: a batch of 3 rows where row 2's render raises still
produces artifacts for rows 1 and 3, reports row 2 with its index and
cause, and exits 0. -/
theorem claim_C2_witness :
    read_csv_to_dict "./data/example-data.csv" csvThree = .ok rowsThree ∧
    renderFailOnR2 (rowsThree.get ⟨1, by decide⟩) = .error "engine error" ∧
    (("  Error generating config for entry " ++ toString (1 + 1) ++ ": " ++
        "engine error") ∈ (generateLoop renderFailOnR2 okWrite "_output" rowsThree).1 ∧
     (∀ k (hk : k < rowsThree.length) (r : String),
        renderFailOnR2 (rowsThree.get ⟨k, hk⟩) = .ok r →
        okWrite (joinPath "_output" (configFilename (rowsThree.get ⟨k, hk⟩) (k + 1))) r =
          .ok () →
        (joinPath "_output" (configFilename (rowsThree.get ⟨k, hk⟩) (k + 1)), r) ∈
          (generateLoop renderFailOnR2 okWrite "_output" rowsThree).2) ∧
     mainExitCode "./template/example-jinja.j2" "./data/example-data.csv" csvThree true
       renderFailOnR2 okWrite ∅ ["_output"] "_output" = 0) :=
  ⟨rfl, rfl,
   claim_C2_continue_on_error "./template/example-jinja.j2" "./data/example-data.csv"
     csvThree renderFailOnR2 okWrite ∅ ["_output"] "_output" rowsThree 1 "engine error"
     rfl (by decide) (Or.inl rfl)⟩

/-- C4, counterexample: in a 2-row batch whose first row fails to render,
exactly one artifact is created (second conjunct), yet its progress line
reads `[2/2]` — the row's index — not `[1/2]` as the number of artifacts
successfully generated so far; no `[1/2]` line is printed at all (third
and fourth conjuncts). -/
theorem claim_C4_counterexample :
    (generateLoop renderFailOnR1 okWrite "_output" rowsTwo).1 =
      ["  Error generating config for entry 1: engine error",
       "  [2/2] Created: r2.cfg"] ∧
    (generateLoop renderFailOnR1 okWrite "_output" rowsTwo).2.length = 1 ∧
    "[1/2] Created: r2.cfg" ∉ (generateLoop renderFailOnR1 okWrite "_output" rowsTwo).1 ∧
    "  [1/2] Created: r2.cfg" ∉
      (generateLoop renderFailOnR1 okWrite "_output" rowsTwo).1 :=
  ⟨rfl, rfl, by decide, by decide⟩

/-- C4, amended: the progress line reported for a successfully generated
artifact is `"  [<i>/<total>] Created: <filename>"` where `<i>` is the
row's 1-based position in the ParameterSet (which equals the number of
artifacts generated so far only when no earlier row failed) and `<total>`
is the number of rows. -/
theorem claim_C4_progress_line
    (render : DictRow → Except String String)
    (write : String → String → Except String Unit)
    (output_dirStr : String) (rows : List DictRow)
    (k : Nat) (hk : k < rows.length) (r : String)
    (hr : render (rows.get ⟨k, hk⟩) = .ok r)
    (hw : write (joinPath output_dirStr (configFilename (rows.get ⟨k, hk⟩) (k + 1))) r =
      .ok ()) :
    ("  [" ++ toString (k + 1) ++ "/" ++ toString rows.length ++ "] Created: " ++
        configFilename (rows.get ⟨k, hk⟩) (k + 1)) ∈
      (generateLoop render write output_dirStr rows).1 := by
  apply (generateLoop_mem render write output_dirStr rows k hk).1
  simp only [List.get_eq_getElem, joinPath] at hr hw
  simp [processRow, hr, hw, joinPath]

/-- C4, witness: the surviving row of the counterexample batch gets the
line `[2/2] Created: r2.cfg`. -/
theorem claim_C4_witness :
    renderFailOnR1 (rowsTwo.get ⟨1, by decide⟩) = .ok "rendered" ∧
    okWrite (joinPath "_output" (configFilename (rowsTwo.get ⟨1, by decide⟩) (1 + 1)))
      "rendered" = .ok () ∧
    ("  [" ++ toString (1 + 1) ++ "/" ++ toString rowsTwo.length ++ "] Created: " ++
        configFilename (rowsTwo.get ⟨1, by decide⟩) (1 + 1)) ∈
      (generateLoop renderFailOnR1 okWrite "_output" rowsTwo).1 :=
  ⟨rfl, rfl,
   claim_C4_progress_line renderFailOnR1 okWrite "_output" rowsTwo 1 (by decide)
     "rendered" rfl rfl⟩
